import Mathlib

/-!
Verification development for the session-relay server of the
call-center-voice-agent-accelerator repository.

The Python sources under `src/server` are shallowly embedded as executable
Lean definitions: pure string helpers become Lean functions, the stateful
`ACSMediaHandler` becomes a `RelayState` record together with explicit
state-passing step functions, and every message the handler writes to the
upstream Voice Live websocket (or to the client websocket) is recorded in an
explicit `Msg` trace.  Impure ingredients of the source (the email regex
search, `json.loads`, random choices inside tool handlers, clocks and GUIDs)
are passed in as explicit parameters so that the control flow translated
from the source stays exact while the environment stays abstract.
-/

namespace VoiceRelay

/-- Arguments of a tool/function call: the JSON object `arguments` from the
source, modelled as an association list of string keys to string values
(all argument values exercised by the repository are strings). -/
abbrev Args := List (String × String)

/-- A message written by the relay.  The first seven constructors are the
JSON commands sent over the upstream Voice Live websocket by `_send_json`;
the last two are the messages sent to the client websocket
(`stop_audio` and `voicelive_to_acs`). -/
inductive Msg where
  | responseCreate
  | responseCreateModalities (modalities : List String)
  | responseCreateInstructions (modalities : List String) (instructions : String)
      (cancelPrevious : Bool)
  | sessionUpdate (voice : String)
  | itemCreateFunctionCall (callId : String) (name : String) (args : Args)
  | itemCreateFunctionCallOutput (callId : Option String) (output : String)
  | itemCreateSystemMessage (text : String)
  | stopAudioToClient
  | audioToClient (b64 : String)
deriving Repr, DecidableEq

/-- Is this message a response-generation command (a `response.create`
payload in any of its three shapes)? -/
def isResponseCreateB : Msg → Bool
  | .responseCreate => true
  | .responseCreateModalities _ => true
  | .responseCreateInstructions _ _ _ => true
  | _ => false

/-- Is this message a `session.update` command (a voice switch or session
configuration)? -/
def isSessionUpdateB : Msg → Bool
  | .sessionUpdate _ => true
  | _ => false

/-- Is this message sent upstream (to the Voice Live websocket), as opposed
to the client websocket? -/
def isUpstreamB : Msg → Bool
  | .stopAudioToClient => false
  | .audioToClient _ => false
  | _ => true

/-- Is this message a `conversation.item.create` carrying a
function-call-output item? -/
def isFunctionCallOutputB : Msg → Bool
  | .itemCreateFunctionCallOutput _ _ => true
  | _ => false

/-- Does the trace contain a response-generation command? -/
def containsResponseCreate (l : List Msg) : Bool :=
  l.any isResponseCreateB

/-- Does `hay` contain `needle` as a substring (over the character list)? -/
def listStartsWith : List Char → List Char → Bool
  | _, [] => true
  | [], _ :: _ => false
  | a :: as, b :: bs => a = b && listStartsWith as bs

/-- Substring search over character lists. -/
def listMentions : List Char → List Char → Bool
  | [], needle => needle.isEmpty
  | a :: as, needle => listStartsWith (a :: as) needle || listMentions as needle

/-- Substring check on strings: does `hay` mention `needle`? -/
def mentions (hay needle : String) : Bool :=
  listMentions hay.toList needle.toList

/-! ## Voice readback codec (`_email_to_spoken_tokens`, `_email_to_ssml`) -/

/-- Embedding of `_EMAIL_PUNCT_ALIAS`. -/
def emailPunctAlias (c : Char) : Option String :=
  if c = '_' then some "underscore"
  else if c = '.' then some "dot"
  else if c = '-' then some "hyphen"
  else if c = '@' then some "at"
  else none

/-- Embedding of `_LETTER_NAME_ALIAS` (keyed by upper-case letters). -/
def letterNameAlias (c : Char) : Option String :=
  if c = 'A' then some "ay" else if c = 'B' then some "bee"
  else if c = 'C' then some "see" else if c = 'D' then some "dee"
  else if c = 'E' then some "ee" else if c = 'F' then some "eff"
  else if c = 'G' then some "gee" else if c = 'H' then some "aitch"
  else if c = 'I' then some "eye" else if c = 'J' then some "jay"
  else if c = 'K' then some "kay" else if c = 'L' then some "el"
  else if c = 'M' then some "em" else if c = 'N' then some "en"
  else if c = 'O' then some "oh" else if c = 'P' then some "pee"
  else if c = 'Q' then some "cue" else if c = 'R' then some "ar"
  else if c = 'S' then some "ess" else if c = 'T' then some "tee"
  else if c = 'U' then some "you" else if c = 'V' then some "vee"
  else if c = 'W' then some "double u" else if c = 'X' then some "ex"
  else if c = 'Y' then some "why" else if c = 'Z' then some "zee"
  else none

/-- Embedding of `_email_to_spoken_tokens`: a punctuation-spoken,
comma-separated fallback string. -/
def emailToSpokenTokens (email : String) : String :=
  let tokens := email.toList.map fun ch =>
    if ch.isAlphanum then ch.toString
    else
      match emailPunctAlias ch with
      | some al => al
      | none => ch.toString
  String.intercalate ", " tokens

/-- Embedding of `xml.sax.saxutils.escape` with default entities. -/
def xmlEscape (s : String) : String :=
  String.join (s.toList.map fun c =>
    if c = '&' then "&amp;"
    else if c = '<' then "&lt;"
    else if c = '>' then "&gt;"
    else c.toString)

/-- Embedding of Python `str.strip()`: drop leading and trailing
whitespace (kept as an executable char-list implementation). -/
def pyStrip (s : String) : String :=
  String.mk (((s.toList.dropWhile Char.isWhitespace).reverse.dropWhile
    Char.isWhitespace).reverse)

/-- Embedding of `_email_to_ssml`: converts an email to SSML that spells
characters and speaks punctuation.  The source is only ever invoked with
`break_ms = 200`. -/
def emailToSsml (email : String) (breakMs : Nat) : String :=
  let normalized := pyStrip email
  if normalized = "" then "<speak></speak>"
  else
    let tokenBreakMs := breakMs
    let letterBreakMs := max 120 (min 200 (tokenBreakMs - 40))
    let tokenBreakTag := "<break time=\"" ++ toString tokenBreakMs ++ "ms\"/>"
    let letterBreakTag := "<break time=\"" ++ toString letterBreakMs ++ "ms\"/>"
    let parts := normalized.toList.foldl (fun (acc : List String) ch =>
      if ch.isAlpha then
        match letterNameAlias ch.toUpper with
        | some al =>
            acc ++ ["<sub alias=\"" ++ xmlEscape al ++ "\">" ++
              xmlEscape ch.toString ++ "</sub>", letterBreakTag]
        | none =>
            acc ++ ["<say-as interpret-as=\"characters\">" ++
              xmlEscape ch.toString ++ "</say-as>", letterBreakTag]
      else if ch.isDigit then
        acc ++ ["<say-as interpret-as=\"characters\">" ++
          xmlEscape ch.toString ++ "</say-as>", letterBreakTag]
      else
        match emailPunctAlias ch with
        | some al =>
            acc ++ ["<sub alias=\"" ++ xmlEscape al ++ "\">" ++
              xmlEscape ch.toString ++ "</sub>", tokenBreakTag]
        | none =>
            acc ++ ["<say-as interpret-as=\"characters\">" ++
              xmlEscape ch.toString ++ "</say-as>", tokenBreakTag])
      ["<speak>"]
    let parts :=
      if parts.getLast? = some tokenBreakTag ∨ parts.getLast? = some letterBreakTag
      then parts.dropLast else parts
    String.join (parts ++ ["</speak>"])

/-- The instruction text of the SSML email-readback `response.create`
(from `_request_email_readback`). -/
def emailReadbackInstructions (ssml : String) : String :=
  "The user just provided an email address. Repeat the email address back exactly. " ++
  "Do not use phonetic alphabet and do not say \x27as in\x27 phrases. " ++
  "Return ONLY SSML. Use only these tags: speak, say-as, sub, break. " ++
  "Do not add any other text before or after the SSML. Output exactly this SSML:\n" ++
  ssml

/-- The instruction text of the plain-spelled fallback `response.create`
(identical in the `response.failed` and `error` event handlers). -/
def fallbackReadbackInstructions (fallback : String) : String :=
  "Repeat the user\x27s email address back, spelling it out character by character. " ++
  "Say \x27at\x27 for @, \x27dot\x27 for ., \x27underscore\x27 for _, and \x27hyphen\x27 for -. " ++
  "Say exactly: " ++ fallback

/-! ## Tool Registry (`app/functions/telehealth_functions.py`)

`app/functions/__init__.py` re-exports `handle_function_call` from
`telehealth_functions`, so the telehealth registry is the one wired into the
relay.  (`order_functions.py` defines its own registry with
`check_order_status`, but nothing in the repository imports it.) -/

/-- A medication entry of `MOCK_PATIENTS`. -/
structure Medication where
  name : String
  dosage : String
  schedule : String
deriving Repr, DecidableEq

/-- A recent-visit entry of `MOCK_PATIENTS` (dates kept as year/month/day). -/
structure Visit where
  year : Nat
  month : Nat
  day : Nat
  purpose : String
deriving Repr, DecidableEq

/-- A patient record of `MOCK_PATIENTS`. -/
structure Patient where
  name : String
  dobYear : Nat
  dobMonth : Nat
  dobDay : Nat
  primaryPhysician : String
  contactPhone : String
  conditions : List String
  medications : List Medication
  recentVisits : List Visit
deriving Repr, DecidableEq

/-- Embedding of `MOCK_PATIENTS`. -/
def mockPatients : List (String × Patient) :=
  [ ("PATIENT001",
     { name := "Avery Johnson"
     , dobYear := 1985, dobMonth := 3, dobDay := 12
     , primaryPhysician := "Dr. Elena Ramirez"
     , contactPhone := "123-123-1234"
     , conditions := ["Type 2 Diabetes", "Hypertension"]
     , medications :=
        [ { name := "Metformin", dosage := "500mg", schedule := "Twice daily" }
        , { name := "Lisinopril", dosage := "10mg", schedule := "Once daily" } ]
     , recentVisits :=
        [ { year := 2025, month := 10, day := 2, purpose := "Quarterly check-in" }
        , { year := 2025, month := 7, day := 8, purpose := "Medication review" } ] })
  , ("PATIENT002",
     { name := "Jordan Lee"
     , dobYear := 1992, dobMonth := 11, dobDay := 4
     , primaryPhysician := "Dr. Priya Sethi"
     , contactPhone := "555-987-6543"
     , conditions := ["Asthma"]
     , medications :=
        [ { name := "Albuterol Inhaler", dosage := "90 mcg", schedule := "As needed" } ]
     , recentVisits :=
        [ { year := 2025, month := 9, day := 17, purpose := "Pulmonary function test" }
        , { year := 2025, month := 5, day := 29, purpose := "Allergy evaluation" } ] }) ]

/-- English month name, as produced by `strftime` directive B. -/
def monthName : Nat → String
  | 1 => "January" | 2 => "February" | 3 => "March" | 4 => "April"
  | 5 => "May" | 6 => "June" | 7 => "July" | 8 => "August"
  | 9 => "September" | 10 => "October" | 11 => "November" | 12 => "December"
  | _ => ""

/-- Zero-padded two-digit day, as produced by `strftime` directive d. -/
def pad2 (n : Nat) : String :=
  if n < 10 then "0" ++ toString n else toString n

/-- Embedding of `_format_date` (`strftime` with month-name, padded day,
year). -/
def formatDate (y m d : Nat) : String :=
  monthName m ++ " " ++ pad2 d ++ ", " ++ toString y

/-- Environment for the ingredients of the tool handlers that are impure in
the source: the random confirmation number, appointment slot and specialist
chosen by `random`, and the formatted ready-by date computed from the
clock in `request_prescription_refill_handler`. -/
structure ToolEnv where
  aptConfirm : Nat
  aptSlot : String
  aptSpecialist : String
  refillReadyDate : String
deriving Repr

/-- Embedding of `schedule_appointment_handler`. -/
def schedule_appointment_handler (env : ToolEnv)
    (patient_id appointment_type preferred_date : String) : String :=
  let patientName :=
    match List.lookup patient_id mockPatients with
    | some p => p.name
    | none => patient_id
  "I scheduled a " ++ appointment_type.toLower ++ " appointment for " ++
    patientName ++ " on " ++ preferred_date ++ " at " ++ env.aptSlot ++
    ". The visit will be with " ++ env.aptSpecialist ++
    ". Confirmation number APT-" ++ toString env.aptConfirm ++ "."

/-- Embedding of `get_patient_history_handler`. -/
def get_patient_history_handler (patient_id : String) : String :=
  match List.lookup patient_id mockPatients with
  | none => "I could not find a health history for that patient ID."
  | some p =>
    let conditions :=
      if p.conditions = [] then "no chronic conditions"
      else String.intercalate ", " p.conditions
    let visitText :=
      match p.recentVisits.head? with
      | some v =>
          "Their most recent visit was on " ++ formatDate v.year v.month v.day ++
            " for " ++ v.purpose
      | none => "There are no recent visits on file"
    p.name ++ " is managed by " ++ p.primaryPhysician ++
      ". They are currently being treated for " ++ conditions ++ ". " ++
      visitText ++ "."

/-- Embedding of `request_prescription_refill_handler`. -/
def request_prescription_refill_handler (env : ToolEnv)
    (patient_id medication_name : String) : String :=
  let patientName :=
    match List.lookup patient_id mockPatients with
    | some p => p.name
    | none => patient_id
  "I submitted a refill request for " ++ medication_name ++ " on behalf of " ++
    patientName ++ ". The prescription will be ready for pickup or delivery by " ++
    env.refillReadyDate ++ "."

/-- Keyword-argument adapter for one required parameter: Python raises
TypeError from `handler(**arguments)` when a required key is missing or an
unexpected key is present. -/
def kwargs1 (k1 : String) (args : Args) : Option String :=
  match List.lookup k1 args with
  | some v1 => if args.all (fun kv => kv.1 = k1) then some v1 else none
  | none => none

/-- Keyword-argument adapter for two required parameters. -/
def kwargs2 (k1 k2 : String) (args : Args) : Option (String × String) :=
  match List.lookup k1 args, List.lookup k2 args with
  | some v1, some v2 =>
      if args.all (fun kv => kv.1 = k1 ∨ kv.1 = k2) then some (v1, v2) else none
  | _, _ => none

/-- Keyword-argument adapter for three required parameters. -/
def kwargs3 (k1 k2 k3 : String) (args : Args) : Option (String × String × String) :=
  match List.lookup k1 args, List.lookup k2 args, List.lookup k3 args with
  | some v1, some v2, some v3 =>
      if args.all (fun kv => kv.1 = k1 ∨ kv.1 = k2 ∨ kv.1 = k3) then
        some (v1, v2, v3)
      else none
  | _, _, _ => none

/-- Embedding of the telehealth `FUNCTION_HANDLERS` dict: name-to-handler
lookup.  A handler returns `Except.error` exactly where Python
`handler(**arguments)` would raise (bad keyword arguments). -/
def telehealthRegistry (env : ToolEnv) (name : String) :
    Option (Args → Except String String) :=
  if name = "schedule_appointment" then
    some fun args =>
      match kwargs3 "patient_id" "appointment_type" "preferred_date" args with
      | some (pid, at_, pd) => .ok (schedule_appointment_handler env pid at_ pd)
      | none => .error "TypeError: bad keyword arguments"
  else if name = "get_patient_history" then
    some fun args =>
      match kwargs1 "patient_id" args with
      | some pid => .ok (get_patient_history_handler pid)
      | none => .error "TypeError: bad keyword arguments"
  else if name = "request_prescription_refill" then
    some fun args =>
      match kwargs2 "patient_id" "medication_name" args with
      | some (pid, med) => .ok (request_prescription_refill_handler env pid med)
      | none => .error "TypeError: bad keyword arguments"
  else none

/-- The apology returned by the telehealth `handle_function_call` for an
unknown function name. -/
def telehealthUnknownApology : String :=
  "I\x27m sorry, I don\x27t know how to help with that tele-health request right now."

/-- The apology returned by the telehealth `handle_function_call` when the
handler raises. -/
def telehealthErrorApology : String :=
  "I encountered an issue while processing that tele-health request." ++
  " Please try again in a moment."

/-- Embedding of the telehealth `handle_function_call`: the unknown-name
branch and the try/except wrapper mean the function always returns a plain
string and never propagates an error. -/
def handleFunctionCall (env : ToolEnv) (function_name : String) (args : Args) :
    String :=
  match telehealthRegistry env function_name with
  | none => telehealthUnknownApology
  | some h =>
      match h args with
      | .ok result => result
      | .error _ => telehealthErrorApology

/-! ## Session Relay state (`ACSMediaHandler`, `acs_media_handler.py`) -/

/-- The pending email-readback record (`_pending_email_readback`): the
normalized email and the precomputed plain-spoken fallback string. -/
structure PendingReadback where
  email : String
  fallback : String
deriving Repr, DecidableEq

/-- One entry of the in-memory transcript buffer (`self.transcripts`).
The user transcript field can be absent in the event (`event.get`), hence
`text : Option String`. -/
structure TranscriptEntry where
  timestamp : String
  sessionId : String
  role : String
  text : Option String
deriving Repr, DecidableEq

/-- The mutable per-conversation state of `ACSMediaHandler` that the
receiver loop and the injection path read and write.  Fields mirror the
attributes set in `__init__` (plus `wsConnected`, which stands for the
duck-typed `_is_ws_connected()` probe of the upstream websocket). -/
structure RelayState where
  sessionId : Option String
  wsConnected : Bool
  responseInProgress : Bool
  primaryVoice : String
  fallbackVoice : Option String
  voiceInUse : String
  voiceFallbackUsed : Bool
  sentAutoGreeting : Bool
  lastEmailReadback : Option String
  pendingEmailReadback : Option PendingReadback
  transcripts : List TranscriptEntry
  pendingBackgroundPayload : Option String
  patientId : Option String
  patientProfileLoaded : Bool
  scheduledRefresh : Option String
deriving Repr, DecidableEq

/-- Impure dependencies of the receiver loop, passed explicitly: the email
regex search (`_EMAIL_REGEX.search`), JSON argument parsing (`json.loads`
on the function-call arguments string), the wired tool invocation
(`handle_function_call`), the clock (`datetime.utcnow().isoformat()`) and
the GUID generator (`_generate_guid`). -/
structure Deps where
  emailSearch : String → Option String
  parseArgs : String → Except String Args
  toolCall : String → Args → String
  now : String
  genGuid : String

/-- Inbound upstream events, one constructor per `type` handled by
`_receiver_loop`, with the event fields each branch reads. -/
inductive Event where
  | sessionCreated (sessionId : Option String)
  | inputAudioBufferCleared
  | speechStarted
  | speechStopped
  | userTranscriptCompleted (transcript : Option String)
  | transcriptionFailed
  | responseCreated
  | responseDone (statusErrorCode : Option String)
  | responseFailed (errorCode : Option String)
  | responseInterrupted
  | responseCanceled
  | textDelta (text : String)
  | textDone (text : String)
  | outputItemAdded (itemType : String)
  | outputItemDone (itemType : String) (callId : Option String) (name : String)
      (argumentsJson : Option String)
  | functionCallArgumentsDelta
  | functionCallArgumentsDone (callId : Option String)
  | audioDelta (b64 : Option String)
  | errorEvent (code : Option String)
  | unknown (eventType : String)
deriving Repr, DecidableEq

/-- Is this one of the four terminal response events
(`response.done` / `response.failed` / `response.interrupted` /
`response.canceled`)? -/
def Event.isTerminalB : Event → Bool
  | .responseDone _ => true
  | .responseFailed _ => true
  | .responseInterrupted => true
  | .responseCanceled => true
  | _ => false

/-- Is this an `error` event whose code is not the transient
"conversation_already_has_active_response" race? -/
def Event.isNonTransientErrorB : Event → Bool
  | .errorEvent code => code ≠ some "conversation_already_has_active_response"
  | _ => false

/-- Is this a `session.created` event? -/
def Event.isSessionCreatedB : Event → Bool
  | .sessionCreated _ => true
  | _ => false

/-- Embedding of `_maybe_request_response`: request a model response only
if none is already in flight.  The reason string is only logged in the
source. -/
def maybeRequestResponse (s : RelayState) (reason : String) :
    RelayState × List Msg :=
  if s.responseInProgress then (s, [])
  else ({ s with responseInProgress := true }, [.responseCreate])

/-- Embedding of `_switch_voice`: reconfigure the session with a different
voice (no-op when the voice is already in use). -/
def switchVoice (voiceName : String) (reason : String) (s : RelayState) :
    RelayState × List Msg :=
  if voiceName = s.voiceInUse then (s, [])
  else ({ s with voiceInUse := voiceName }, [.sessionUpdate voiceName])

/-- Embedding of `_handle_synthesis_failure`: single-shot voice fallback.
The Python truthiness test `self.fallback_voice` is modelled by requiring a
`some` value that is not the empty string. -/
def handleSynthesisFailure (context : String) (s : RelayState) :
    RelayState × List Msg :=
  match s.fallbackVoice with
  | some fb =>
      if s.voiceFallbackUsed = false ∧ fb ≠ "" ∧ fb ≠ s.voiceInUse then
        let s1 := { s with voiceFallbackUsed := true }
        let p1 := switchVoice fb context s1
        let p2 := maybeRequestResponse p1.1 "retry_after_fallback"
        (p2.1, p1.2 ++ p2.2)
      else (s, [])
  | none => (s, [])

/-- Embedding of `_request_email_readback`: if connected and the email is
non-empty after stripping, store a pending fallback record and send an
SSML readback `response.create` (modalities audio, cancel_previous),
latching the in-flight flag. -/
def requestEmailReadback (email : String) (s : RelayState) :
    RelayState × List Msg :=
  if s.wsConnected = false then (s, [])
  else
    let normalized := pyStrip email
    if normalized = "" then (s, [])
    else
      let ssml := emailToSsml normalized 200
      let fallback := emailToSpokenTokens normalized
      ({ s with
          pendingEmailReadback := some { email := normalized, fallback := fallback }
        , responseInProgress := true },
       [.responseCreateInstructions ["audio"] (emailReadbackInstructions ssml) true])

/-- Embedding of `_inject_background_context`: send the queued context
document as a system message and clear the pending slot. -/
def injectBackgroundContext (payload : String) (s : RelayState) :
    RelayState × List Msg :=
  ({ s with pendingBackgroundPayload := none },
   [.itemCreateSystemMessage ("BACKGROUND_PATIENT " ++ payload)])

/-- The shared plain-spelled fallback readback step of the
`response.failed` and `error` event branches: clear the pending record and,
if the stored fallback string is non-empty, send the fallback
`response.create` and latch the in-flight flag. -/
def emailReadbackFallbackStep (s : RelayState) : RelayState × List Msg :=
  match s.pendingEmailReadback with
  | some pending =>
      let s1 := { s with pendingEmailReadback := none }
      if pending.fallback ≠ "" then
        ({ s1 with responseInProgress := true },
         [.responseCreateInstructions ["audio"]
            (fallbackReadbackInstructions pending.fallback) true])
      else (s1, [])
  | none => (s, [])

/-- Embedding of one iteration of `_receiver_loop`: dispatch a single
parsed inbound event against the relay state, returning the new state and
the trace of messages written while handling it.  (Registering the handler
in the process-wide `_ACTIVE_HANDLERS` map and all logging are outside the
per-session state and are not modelled; the early `return` in the
`response.function_call_arguments.done` branch terminates the loop in the
source but performs no state change or send.) -/
def processEvent (d : Deps) (s : RelayState) (e : Event) :
    RelayState × List Msg :=
  match e with
  | .sessionCreated sid =>
      let s1 := { s with
          sessionId := sid
        , voiceFallbackUsed := false
        , voiceInUse := s.primaryVoice }
      let p1 :=
        if s1.sentAutoGreeting then (s1, ([] : List Msg))
        else
          let r := maybeRequestResponse s1 "session_created_greeting"
          ({ r.1 with sentAutoGreeting := true }, r.2)
      let p2 :=
        match p1.1.pendingBackgroundPayload with
        | some payload =>
            if p1.1.wsConnected then injectBackgroundContext payload p1.1
            else (p1.1, [])
        | none => (p1.1, [])
      (p2.1, p1.2 ++ p2.2)
  | .inputAudioBufferCleared => (s, [])
  | .speechStarted => (s, [.stopAudioToClient])
  | .speechStopped => maybeRequestResponse s "speech_stopped"
  | .userTranscriptCompleted transcript =>
      let entry : TranscriptEntry :=
        { timestamp := d.now
        , sessionId := s.sessionId.getD d.genGuid
        , role := "user"
        , text := transcript }
      let s1 := { s with transcripts := s.transcripts ++ [entry] }
      match transcript with
      | some t =>
          match d.emailSearch t with
          | some email =>
              if s1.lastEmailReadback = some email then (s1, [])
              else
                requestEmailReadback email
                  { s1 with lastEmailReadback := some email }
          | none => (s1, [])
      | none => (s1, [])
  | .transcriptionFailed => (s, [])
  | .responseCreated => ({ s with responseInProgress := true }, [])
  | .responseDone statusErrorCode =>
      let s1 := { s with responseInProgress := false, pendingEmailReadback := none }
      if statusErrorCode = some "speech_synthesis_error" then
        handleSynthesisFailure "status_details" s1
      else (s1, [])
  | .responseFailed errorCode =>
      let s1 := { s with responseInProgress := false }
      let p1 := emailReadbackFallbackStep s1
      let p2 :=
        if errorCode = some "speech_synthesis_error" then
          handleSynthesisFailure "response_failed_event" p1.1
        else (p1.1, [])
      (p2.1, p1.2 ++ p2.2)
  | .responseInterrupted =>
      ({ s with responseInProgress := false, pendingEmailReadback := none }, [])
  | .responseCanceled =>
      ({ s with responseInProgress := false, pendingEmailReadback := none }, [])
  | .textDelta _ => (s, [])
  | .textDone text =>
      let entry : TranscriptEntry :=
        { timestamp := d.now
        , sessionId := s.sessionId.getD d.genGuid
        , role := "assistant"
        , text := some text }
      ({ s with transcripts := s.transcripts ++ [entry] }, [])
  | .outputItemAdded _ => (s, [])
  | .outputItemDone itemType callId name argumentsJson =>
      if itemType = "function_call" then
        let parsed : Except String Args :=
          match argumentsJson with
          | some a => if a = "" then .ok [] else d.parseArgs a
          | none => .ok []
        match parsed with
        | .ok args =>
            let result := d.toolCall name args
            let p := maybeRequestResponse s "function_call_complete"
            (p.1, .itemCreateFunctionCallOutput callId result :: p.2)
        | .error msg =>
            let p := maybeRequestResponse s "function_call_error"
            (p.1, .itemCreateFunctionCallOutput callId
              ("Error processing request: " ++ msg) :: p.2)
      else (s, [])
  | .functionCallArgumentsDelta => (s, [])
  | .functionCallArgumentsDone _ => (s, [])
  | .audioDelta b64 =>
      match b64 with
      | some b => if b = "" then (s, []) else (s, [.audioToClient b])
      | none => (s, [])
  | .errorEvent code =>
      if code = some "conversation_already_has_active_response" then (s, [])
      else
        let s1 := { s with responseInProgress := false }
        let p1 := emailReadbackFallbackStep s1
        let p2 :=
          if code = some "speech_synthesis_error" then
            handleSynthesisFailure "error_event" p1.1
          else (p1.1, [])
        (p2.1, p1.2 ++ p2.2)
  | .unknown _ => (s, [])

/-- Run a sequence of inbound events through the receiver loop. -/
def runEvents (d : Deps) : RelayState → List Event → RelayState × List Msg
  | s, [] => (s, [])
  | s, e :: es =>
      let p := processEvent d s e
      let q := runEvents d p.1 es
      (q.1, p.2 ++ q.2)

/-- Run a sequence of `_maybe_request_response` calls (one per reason). -/
def runMaybeRequests : RelayState → List String → RelayState × List Msg
  | s, [] => (s, [])
  | s, r :: rs =>
      let p := maybeRequestResponse s r
      let q := runMaybeRequests p.1 rs
      (q.1, p.2 ++ q.2)

/-! ## Out-of-band tool injection (`inject_tool_result`) -/

/-- The allowed response modalities of `inject_tool_result`. -/
def allowedModalities : List String := ["text", "audio", "animation", "avatar"]

/-- In-place dict update `args["patient_id"] = normalized`. -/
def updateArg (args : Args) (key value : String) : Args :=
  args.map fun kv => if kv.1 = key then (key, value) else kv

/-- Embedding of `_schedule_patient_context_refresh`: no-op when the
subject is current and a profile is loaded; otherwise record the new
subject and start a refresh task (recorded in `scheduledRefresh`). -/
def schedulePatientContextRefresh (pid : String) (s : RelayState) : RelayState :=
  if s.patientId = some pid ∧ s.patientProfileLoaded then s
  else { s with patientId := some pid, scheduledRefresh := some pid }

/-- Embedding of `inject_tool_result`.  Returns the result of the call
(`Except.error` where the source raises RuntimeError or ValueError), the
new state and the trace of messages sent.  The freshly generated call id
(`uuid4().hex` in the source) is passed in as `callId`; the tool
invocation used when the caller supplies no output is `toolCall`
(`handle_function_call`); a caller-supplied output is already serialized
to the string `output`. -/
def injectToolResult (toolCall : String → Args → String) (callId : String)
    (functionName : String) (arguments : Option Args) (output : Option String)
    (silent : Bool) (responseModalities : Option (List String)) (s : RelayState) :
    Except String String × RelayState × List Msg :=
  if s.wsConnected = false then
    (.error "Voice Live websocket is not connected", s, [])
  else
    let args0 := arguments.getD []
    let pidStep : Args × RelayState :=
      match List.lookup "patient_id" args0 with
      | some pid =>
          let normalized := pyStrip pid
          if normalized ≠ "" then
            (updateArg args0 "patient_id" normalized,
             schedulePatientContextRefresh normalized s)
          else (args0, s)
      | none => (args0, s)
    let args := pidStep.1
    let s1 := pidStep.2
    let callItem := Msg.itemCreateFunctionCall callId functionName args
    let outputValue :=
      match output with
      | none => toolCall functionName args
      | some o => o
    let outputItem := Msg.itemCreateFunctionCallOutput (some callId) outputValue
    match responseModalities with
    | some (m :: ms) =>
        let mods := m :: ms
        let invalid := mods.filter fun x => !(allowedModalities.contains x)
        if invalid ≠ [] then
          (.error ("Invalid response modalities: " ++ String.intercalate ", " invalid),
           s1, [callItem, outputItem])
        else
          (.ok callId, { s1 with responseInProgress := true },
           [callItem, outputItem, .responseCreateModalities mods])
    | _ =>
        if silent = false then
          (.ok callId, { s1 with responseInProgress := true },
           [callItem, outputItem, .responseCreate])
        else
          (.ok callId, s1, [callItem, outputItem])

/-! ## Connection validation (`connect`) -/

/-- The default `AZURE_VOICE_LIVE_API_VERSION`. -/
def defaultApiVersion : String := "2025-05-01-preview"

/-- Embedding of `self.endpoint.rstrip("/")`. -/
def rstripSlashes (s : String) : String :=
  String.mk ((s.toList.reverse.dropWhile (· = '/')).reverse)

/-- The websocket URL built by `connect` (`quoteFn` stands for
`urllib.parse.quote`, an uninterpreted percent-encoding). -/
def buildVoiceLiveUrl (quoteFn : String → String)
    (endpoint model apiVersion : String) : String :=
  let baseWs := (rstripSlashes endpoint).replace "https://" "wss://"
  baseWs ++ "/voice-live/realtime?api-version=" ++ apiVersion ++
    "&model=" ++ quoteFn model

/-- Embedding of the configuration-validation prefix of `connect`: the
source raises ValueError when the endpoint is missing and then builds the
websocket URL.  No other configuration check precedes opening the
connection. -/
def connectValidate (quoteFn : String → String)
    (endpoint model apiVersion : String) : Except String String :=
  if endpoint = "" then .error "AZURE_VOICE_LIVE_ENDPOINT is required"
  else .ok (buildVoiceLiveUrl quoteFn endpoint model apiVersion)

/-! ## Transcript upload (`upload_transcript`, `cosmos_client.py`) -/

/-- The Cosmos client as far as availability is concerned: `is_available`
returns whether the container handle is set (it is `None` when the
endpoint or key configuration is missing or client creation failed). -/
structure ConversationCosmosClient where
  container : Option Unit
deriving Repr, DecidableEq

/-- Embedding of `ConversationCosmosClient.is_available`. -/
def ConversationCosmosClient.is_available (c : ConversationCosmosClient) : Bool :=
  c.container.isSome

/-- Embedding of `upload_transcript`.  `store` stands for
`cosmos_client.store_conversation` (its success flag); the write actually
handed to the Transcript Sink is returned alongside the result so that the
absence of writes is observable. -/
def uploadTranscript (c : ConversationCosmosClient)
    (store : String → List TranscriptEntry → Bool)
    (sessionId : Option String) (guid : String)
    (transcripts : List TranscriptEntry) :
    Bool × List (String × List TranscriptEntry) :=
  if c.is_available = false then (false, [])
  else if transcripts = [] then (true, [])
  else
    let sid := sessionId.getD guid
    (store sid transcripts, [(sid, transcripts)])

/-! ## Sample environments and states used by witnesses -/

/-- A fresh relay state mirroring `__init__` followed by a successful
`connect` (websocket open): no session id yet, no response in flight, the
primary voice in use, no fallback consumed, no pending readback. -/
def initialState (primary : String) (fallback : Option String)
    (wsOpen : Bool) : RelayState :=
  { sessionId := none
  , wsConnected := wsOpen
  , responseInProgress := false
  , primaryVoice := primary
  , fallbackVoice := fallback
  , voiceInUse := primary
  , voiceFallbackUsed := false
  , sentAutoGreeting := false
  , lastEmailReadback := none
  , pendingEmailReadback := none
  , transcripts := []
  , pendingBackgroundPayload := none
  , patientId := none
  , patientProfileLoaded := false
  , scheduledRefresh := none }

/-- A sample tool environment (concrete values for the random choices and
clock of the handlers). -/
def sampleToolEnv : ToolEnv :=
  { aptConfirm := 123456
  , aptSlot := "10:00 AM"
  , aptSpecialist := "Dr. Kiera Morrison (Cardiology)"
  , refillReadyDate := "October 13 at 09:00 AM" }

/-- Sample dependencies whose email search finds nothing and whose JSON
parser rejects everything; the wired tool call is the telehealth
`handle_function_call`. -/
def sampleDeps : Deps :=
  { emailSearch := fun _ => none
  , parseArgs := fun _ => .error "Expecting value: line 1 column 1 (char 0)"
  , toolCall := handleFunctionCall sampleToolEnv
  , now := "2026-10-12T00:00:00"
  , genGuid := "00000000-0000-0000-0000-000000000000" }

/-- Sample state with the primary voice active and an unused fallback
voice configured, as after `connect` with both voice settings present. -/
def stateWithFallback : RelayState :=
  initialState "en-US-Ava:DragonHDLatestNeural" (some "en-US-Andrew:DragonHDLatestNeural") true

/-- Sample state with a response in flight. -/
def busyState : RelayState :=
  { stateWithFallback with responseInProgress := true }

/-- Decidable success test for `Except`. -/
def exceptIsOk : Except String String → Bool
  | .ok _ => true
  | .error _ => false

/-- A sample transcript entry. -/
def sampleEntry : TranscriptEntry :=
  { timestamp := "2026-10-12T00:00:00"
  , sessionId := "S1"
  , role := "user"
  , text := some "hello" }

/-! ## Helper lemmas -/

theorem maybeRequestResponse_inflight (s : RelayState) (r : String)
    (h : s.responseInProgress = true) : maybeRequestResponse s r = (s, []) := by
  simp [maybeRequestResponse, h]

theorem maybeRequestResponse_idle (s : RelayState) (r : String)
    (h : s.responseInProgress = false) :
    maybeRequestResponse s r =
      ({ s with responseInProgress := true }, [Msg.responseCreate]) := by
  simp [maybeRequestResponse, h]

theorem runMaybeRequests_inflight (s : RelayState) (rs : List String)
    (h : s.responseInProgress = true) : runMaybeRequests s rs = (s, []) := by
  induction rs with
  | nil => rfl
  | cons r rs ih => simp [runMaybeRequests, maybeRequestResponse_inflight s r h, ih]

/-! ## C2 -/

/-- C2: `_maybe_request_response` is a no-op (sends nothing) whenever the
in-flight flag is set, and otherwise sends exactly one `response.create`
and sets the flag; consequently any sequence of calls emits at most one
response-generation command, and none at all when the flag starts true
(i.e. between an in-flight=true transition and the next terminal event). -/
theorem C2_maybe_request_response_dedup (s : RelayState) (reasons : List String)
    (r : String) :
    (s.responseInProgress = true → maybeRequestResponse s r = (s, [])) ∧
    (s.responseInProgress = false →
      maybeRequestResponse s r =
        ({ s with responseInProgress := true }, [Msg.responseCreate])) ∧
    (runMaybeRequests s reasons).2.countP isResponseCreateB ≤
      (if s.responseInProgress then 0 else 1) := by
  refine ⟨fun h => maybeRequestResponse_inflight s r h,
          fun h => maybeRequestResponse_idle s r h, ?_⟩
  by_cases h : s.responseInProgress
  · simp [runMaybeRequests_inflight s reasons h, h]
  · simp only [eq_false_of_ne_true h, if_neg h]
    cases reasons with
    | nil => simp [runMaybeRequests]
    | cons r0 rs =>
        have hflag : s.responseInProgress = false := eq_false_of_ne_true h
        simp only [runMaybeRequests, maybeRequestResponse_idle s r0 hflag,
          runMaybeRequests_inflight ({ s with responseInProgress := true }) rs rfl]
        simp [isResponseCreateB]

/-- Witness for C2 at concrete states: with a response in flight the call
sends nothing, and a fresh state followed by three requests emits at most
one response-generation command. -/
theorem C2_witness :
    maybeRequestResponse busyState "speech_stopped" = (busyState, []) ∧
    (runMaybeRequests stateWithFallback
        ["speech_stopped", "function_call_complete", "retry_after_fallback"]).2.countP
        isResponseCreateB ≤ 1 := by
  refine ⟨(C2_maybe_request_response_dedup busyState [] "speech_stopped").1 rfl, ?_⟩
  have h := (C2_maybe_request_response_dedup stateWithFallback
    ["speech_stopped", "function_call_complete", "retry_after_fallback"] "x").2.2
  simpa [stateWithFallback, initialState] using h

/-! ## C8 -/

/-- C8: the wired `handle_function_call` (telehealth registry) never
propagates an error across the boundary: an unknown name yields the
unknown-function apology, a handler that raises yields the error apology,
and otherwise the handler's result string is returned unchanged. -/
theorem C8_tool_invoke_never_throws (env : ToolEnv) (name : String) (args : Args) :
    (telehealthRegistry env name = none →
       handleFunctionCall env name args = telehealthUnknownApology) ∧
    (∀ h, telehealthRegistry env name = some h →
       (∀ e, h args = .error e →
          handleFunctionCall env name args = telehealthErrorApology) ∧
       (∀ r, h args = .ok r → handleFunctionCall env name args = r)) := by
  constructor
  · intro hnone
    simp [handleFunctionCall, hnone]
  · intro h hsome
    constructor
    · intro e herr
      simp [handleFunctionCall, hsome, herr]
    · intro r hok
      simp [handleFunctionCall, hsome, hok]

/-- Witness for C8: the unknown name "check_order_status" (the telehealth
registry has no such handler) yields the apology, and a handler invoked
with missing required arguments (which raises TypeError in Python) yields
the error apology. -/
theorem C8_witness :
    handleFunctionCall sampleToolEnv "check_order_status" [] =
      telehealthUnknownApology ∧
    handleFunctionCall sampleToolEnv "get_patient_history" [] =
      telehealthErrorApology := by
  constructor
  · exact (C8_tool_invoke_never_throws sampleToolEnv "check_order_status" []).1 rfl
  · exact (((C8_tool_invoke_never_throws sampleToolEnv "get_patient_history" []).2
      _ rfl).1 _ rfl)

/-! ## C9 -/

/-- C9 counterexample: `connect` performs no validation of the model
setting.  With a configured endpoint and a missing (empty) model, the
validation prefix succeeds and the connection proceeds, so the claim that
connect fails with ConfigurationError when the model setting is missing is
false. -/
theorem C9_counterexample :
    exceptIsOk (connectValidate id "https://example.openai.azure.com" ""
      defaultApiVersion) = true := by
  rfl

/-- C9 amended: `connect` validates only the endpoint before opening the
upstream connection — it raises the configuration error exactly when the
endpoint is missing, and succeeds for any model value (including a missing
one) otherwise. -/
theorem C9_amended (q : String → String) (endpoint model apiVersion : String) :
    (endpoint = "" → connectValidate q endpoint model apiVersion =
        .error "AZURE_VOICE_LIVE_ENDPOINT is required") ∧
    (endpoint ≠ "" →
        exceptIsOk (connectValidate q endpoint model apiVersion) = true) := by
  constructor
  · intro h
    simp [connectValidate, h]
  · intro h
    simp [connectValidate, h, exceptIsOk]

/-- Witness for C9 amended: a missing endpoint fails, a present endpoint
with an empty model succeeds. -/
theorem C9_witness :
    connectValidate id "" "gpt-4o-mini" defaultApiVersion =
      .error "AZURE_VOICE_LIVE_ENDPOINT is required" ∧
    exceptIsOk (connectValidate id "https://e.cognitiveservices.azure.com"
      "gpt-4o-mini" defaultApiVersion) = true := by
  exact ⟨(C9_amended id "" "gpt-4o-mini" defaultApiVersion).1 rfl,
         (C9_amended id "https://e.cognitiveservices.azure.com" "gpt-4o-mini"
            defaultApiVersion).2 (by decide)⟩

/-! ## C10 -/

/-- C10: `upload_transcript` returns False and hands nothing to the
Transcript Sink when the Cosmos store is unavailable (even with a
non-empty buffer), and returns True without writing when the store is
available but the buffer is empty. -/
theorem C10_upload_transcript_guards (c : ConversationCosmosClient)
    (store : String → List TranscriptEntry → Bool) (sid : Option String)
    (guid : String) (ts : List TranscriptEntry) :
    (c.is_available = false → uploadTranscript c store sid guid ts = (false, [])) ∧
    (c.is_available = true → ts = [] →
       uploadTranscript c store sid guid ts = (true, [])) := by
  constructor
  · intro h
    simp [uploadTranscript, h]
  · intro h ht
    simp [uploadTranscript, h, ht]

/-- Witness for C10 at concrete clients: an unavailable store with a
non-empty buffer uploads nothing and fails; an available store with an
empty buffer succeeds without writing. -/
theorem C10_witness :
    uploadTranscript ⟨none⟩ (fun _ _ => true) (some "S1") "g" [sampleEntry] =
      (false, []) ∧
    uploadTranscript ⟨some ()⟩ (fun _ _ => true) (some "S1") "g" [] =
      (true, []) := by
  exact ⟨(C10_upload_transcript_guards ⟨none⟩ (fun _ _ => true) (some "S1") "g"
            [sampleEntry]).1 rfl,
         (C10_upload_transcript_guards ⟨some ()⟩ (fun _ _ => true) (some "S1") "g"
            []).2 rfl rfl⟩

/-! ## Voice-fallback lemmas and C5 -/

theorem handleSynthesisFailure_used (c : String) (s : RelayState)
    (h : s.voiceFallbackUsed = true) : handleSynthesisFailure c s = (s, []) := by
  unfold handleSynthesisFailure
  cases hf : s.fallbackVoice with
  | none => rfl
  | some fb => simp [h]

theorem handleSynthesisFailure_fires (c : String) (s : RelayState) (fb : String)
    (h1 : s.fallbackVoice = some fb) (h2 : fb ≠ "") (h3 : fb ≠ s.voiceInUse)
    (h4 : s.voiceFallbackUsed = false) :
    handleSynthesisFailure c s =
      if s.responseInProgress then
        ({ s with voiceFallbackUsed := true, voiceInUse := fb },
         [Msg.sessionUpdate fb])
      else
        ({ s with voiceFallbackUsed := true, voiceInUse := fb, responseInProgress := true },
         [Msg.sessionUpdate fb, Msg.responseCreate]) := by
  unfold handleSynthesisFailure
  rw [h1]
  by_cases hp : s.responseInProgress <;>
    simp [h2, h3, h4, hp, switchVoice, maybeRequestResponse]

/-- Any non session-created event leaves a consumed voice fallback in
place: the voice in use, the consumed flag and the configured voices are
unchanged. -/
theorem processEvent_voice_sticky (d : Deps) (s : RelayState) (e : Event)
    (hu : s.voiceFallbackUsed = true) (he : e.isSessionCreatedB = false) :
    (processEvent d s e).1.voiceInUse = s.voiceInUse ∧
    (processEvent d s e).1.voiceFallbackUsed = true ∧
    (processEvent d s e).1.primaryVoice = s.primaryVoice ∧
    (processEvent d s e).1.fallbackVoice = s.fallbackVoice := by
  cases e <;>
    simp only [Event.isSessionCreatedB] at he <;>
    simp only [processEvent, maybeRequestResponse, requestEmailReadback,
      emailReadbackFallbackStep, handleSynthesisFailure, switchVoice,
      injectBackgroundContext] <;>
    (repeat' split) <;>
    simp_all

theorem runEvents_voice_sticky (d : Deps) (es : List Event) :
    ∀ s : RelayState, s.voiceFallbackUsed = true →
      (es.all fun e => !e.isSessionCreatedB) = true →
      (runEvents d s es).1.voiceInUse = s.voiceInUse ∧
      (runEvents d s es).1.voiceFallbackUsed = true := by
  induction es with
  | nil => exact fun s hu _ => ⟨rfl, hu⟩
  | cons e es ih =>
      intro s hu hall
      simp only [List.all_cons, Bool.and_eq_true, Bool.not_eq_true'] at hall
      have hstep := processEvent_voice_sticky d s e hu hall.1
      have hrest := ih (processEvent d s e).1 hstep.2.1 (by
        simpa [List.all_eq_true] using hall.2)
      simp only [runEvents]
      exact ⟨hstep.1 ▸ hrest.1, hrest.2⟩

/-- A session-created event resets the voice-fallback state: the consumed
flag is cleared and the primary voice is put back in use. -/
theorem processEvent_sessionCreated_resets (d : Deps) (s : RelayState)
    (sid : Option String) :
    (processEvent d s (.sessionCreated sid)).1.voiceFallbackUsed = false ∧
    (processEvent d s (.sessionCreated sid)).1.voiceInUse = s.primaryVoice := by
  simp only [processEvent, maybeRequestResponse, injectBackgroundContext]
  (repeat' split) <;> simp_all

/-- C5: voice fallback is single-shot per session.  When a fallback voice
is configured, unused and distinct from the current voice, the first
synthesis-failure signal switches to it (one session.update; plus a retry
response request when none is in flight); a second consecutive signal does
nothing; the fallback voice then stays in use across any further
non-session-created events; and the next session-created event resets the
fallback state (flag cleared, primary voice back in use). -/
theorem C5_voice_fallback_single_shot (s : RelayState) (fb c1 c2 : String)
    (h1 : s.fallbackVoice = some fb) (h2 : fb ≠ "") (h3 : fb ≠ s.voiceInUse)
    (h4 : s.voiceFallbackUsed = false) :
    (handleSynthesisFailure c1 s).2.countP isSessionUpdateB = 1 ∧
    (handleSynthesisFailure c1 s).1.voiceInUse = fb ∧
    (handleSynthesisFailure c1 s).1.voiceFallbackUsed = true ∧
    (s.responseInProgress = false →
       Msg.responseCreate ∈ (handleSynthesisFailure c1 s).2) ∧
    handleSynthesisFailure c2 (handleSynthesisFailure c1 s).1 =
      ((handleSynthesisFailure c1 s).1, []) ∧
    (∀ d es, (es.all fun e => !e.isSessionCreatedB) = true →
       (runEvents d (handleSynthesisFailure c1 s).1 es).1.voiceInUse = fb ∧
       (runEvents d (handleSynthesisFailure c1 s).1 es).1.voiceFallbackUsed = true) ∧
    (∀ d sid,
       (processEvent d (handleSynthesisFailure c1 s).1
          (.sessionCreated sid)).1.voiceFallbackUsed = false ∧
       (processEvent d (handleSynthesisFailure c1 s).1
          (.sessionCreated sid)).1.voiceInUse = s.primaryVoice) := by
  have hfire := handleSynthesisFailure_fires c1 s fb h1 h2 h3 h4
  have hvoice : (handleSynthesisFailure c1 s).1.voiceInUse = fb := by
    rw [hfire]; by_cases hp : s.responseInProgress <;> simp [hp]
  have hused : (handleSynthesisFailure c1 s).1.voiceFallbackUsed = true := by
    rw [hfire]; by_cases hp : s.responseInProgress <;> simp [hp]
  have hprimary : (handleSynthesisFailure c1 s).1.primaryVoice = s.primaryVoice := by
    rw [hfire]; by_cases hp : s.responseInProgress <;> simp [hp]
  refine ⟨?_, hvoice, hused, ?_, ?_, ?_, ?_⟩
  · rw [hfire]; by_cases hp : s.responseInProgress <;>
      simp [hp, isSessionUpdateB]
  · intro hp
    rw [hfire]; simp [hp]
  · exact handleSynthesisFailure_used c2 _ hused
  · intro d es hall
    have := runEvents_voice_sticky d es (handleSynthesisFailure c1 s).1 hused hall
    exact ⟨hvoice ▸ this.1, this.2⟩
  · intro d sid
    have := processEvent_sessionCreated_resets d (handleSynthesisFailure c1 s).1 sid
    exact ⟨this.1, hprimary ▸ this.2⟩

/-- Witness for C5 at a concrete state: the first failure switches to the
fallback voice with one session.update, the second failure is a no-op. -/
theorem C5_witness :
    (handleSynthesisFailure "status_details" stateWithFallback).2.countP
      isSessionUpdateB = 1 ∧
    (handleSynthesisFailure "status_details" stateWithFallback).1.voiceInUse =
      "en-US-Andrew:DragonHDLatestNeural" ∧
    handleSynthesisFailure "error_event"
        (handleSynthesisFailure "status_details" stateWithFallback).1 =
      ((handleSynthesisFailure "status_details" stateWithFallback).1, []) := by
  have h := C5_voice_fallback_single_shot stateWithFallback
    "en-US-Andrew:DragonHDLatestNeural" "status_details" "error_event"
    rfl (by decide) (by decide) rfl
  exact ⟨h.1, h.2.1, h.2.2.2.2.1⟩

/-! ## Email-readback lemmas and C7 -/

/-- Processing a user transcript whose email search differs from the last
handled token records the token and emits one SSML readback command. -/
theorem processEvent_transcript_email_new (d : Deps) (s : RelayState) (t e : String)
    (hs : d.emailSearch t = some e) (hws : s.wsConnected = true)
    (he : pyStrip e ≠ "") (hl : s.lastEmailReadback ≠ some e) :
    processEvent d s (.userTranscriptCompleted (some t)) =
      ({ s with
          transcripts := s.transcripts ++
            [{ timestamp := d.now, sessionId := s.sessionId.getD d.genGuid, role := "user", text := some t }]
        , lastEmailReadback := some e
        , pendingEmailReadback := some { email := pyStrip e, fallback := emailToSpokenTokens (pyStrip e) }
        , responseInProgress := true },
       [.responseCreateInstructions ["audio"]
          (emailReadbackInstructions (emailToSsml (pyStrip e) 200)) true]) := by
  simp only [processEvent, hs]
  rw [if_neg hl]
  simp [requestEmailReadback, hws, he]

/-- Processing a user transcript whose email search equals the last
handled token only appends the transcript entry and emits nothing. -/
theorem processEvent_transcript_email_dup (d : Deps) (s : RelayState) (t e : String)
    (hs : d.emailSearch t = some e) (hl : s.lastEmailReadback = some e) :
    processEvent d s (.userTranscriptCompleted (some t)) =
      ({ s with
          transcripts := s.transcripts ++
            [{ timestamp := d.now, sessionId := s.sessionId.getD d.genGuid, role := "user", text := some t }] },
       []) := by
  simp only [processEvent, hs]
  rw [if_pos hl]

/-- C7: email-readback deduplication.  For two consecutive user
transcripts each containing an email-like token (the connection open, the
tokens non-empty after stripping, the first distinct from the last handled
token): the first transcript emits exactly one readback command; the
second emits none when its token equals the first, and exactly one when it
differs. -/
theorem C7_email_readback_dedup (d : Deps) (s : RelayState) (t1 t2 e1 e2 : String)
    (hs1 : d.emailSearch t1 = some e1) (hs2 : d.emailSearch t2 = some e2)
    (hws : s.wsConnected = true) (he1 : pyStrip e1 ≠ "") (he2 : pyStrip e2 ≠ "")
    (hl : s.lastEmailReadback ≠ some e1) :
    (processEvent d s (.userTranscriptCompleted (some t1))).2.countP
      isResponseCreateB = 1 ∧
    (e2 = e1 →
      (processEvent d (processEvent d s (.userTranscriptCompleted (some t1))).1
         (.userTranscriptCompleted (some t2))).2.countP isResponseCreateB = 0) ∧
    (e2 ≠ e1 →
      (processEvent d (processEvent d s (.userTranscriptCompleted (some t1))).1
         (.userTranscriptCompleted (some t2))).2.countP isResponseCreateB = 1) := by
  have hstep1 := processEvent_transcript_email_new d s t1 e1 hs1 hws he1 hl
  have hws1 :
      (processEvent d s (.userTranscriptCompleted (some t1))).1.wsConnected = true := by
    rw [hstep1]; exact hws
  have hlast1 :
      (processEvent d s (.userTranscriptCompleted (some t1))).1.lastEmailReadback =
        some e1 := by
    rw [hstep1]
  refine ⟨?_, ?_, ?_⟩
  · rw [hstep1]
    simp [isResponseCreateB]
  · intro heq
    subst heq
    have hdup := processEvent_transcript_email_dup d
      (processEvent d s (.userTranscriptCompleted (some t1))).1 t2 e2 hs2 hlast1
    rw [hdup]
    rfl
  · intro hne
    have hl1 :
        (processEvent d s (.userTranscriptCompleted (some t1))).1.lastEmailReadback ≠
          some e2 := by
      rw [hlast1]
      simp only [ne_eq, Option.some.injEq]
      exact fun h => hne h.symm
    have hnew := processEvent_transcript_email_new d
      (processEvent d s (.userTranscriptCompleted (some t1))).1 t2 e2 hs2 hws1 he2 hl1
    rw [hnew]
    simp [isResponseCreateB]

/-- Dependencies for the C7 witness: transcript "one" contains a@b.co,
any other transcript contains c@d.co. -/
def c7Deps : Deps :=
  { sampleDeps with
      emailSearch := fun t => if t = "one" then some "a@b.co" else some "c@d.co" }

/-- Witness for C7 at concrete transcripts: the same token twice yields
one readback in total, two different tokens yield one readback each. -/
theorem C7_witness :
    (processEvent c7Deps stateWithFallback
       (.userTranscriptCompleted (some "one"))).2.countP isResponseCreateB = 1 ∧
    (processEvent c7Deps
       (processEvent c7Deps stateWithFallback
          (.userTranscriptCompleted (some "one"))).1
       (.userTranscriptCompleted (some "one"))).2.countP isResponseCreateB = 0 ∧
    (processEvent c7Deps
       (processEvent c7Deps stateWithFallback
          (.userTranscriptCompleted (some "one"))).1
       (.userTranscriptCompleted (some "two"))).2.countP isResponseCreateB = 1 := by
  have h1 := C7_email_readback_dedup c7Deps stateWithFallback "one" "one"
    "a@b.co" "a@b.co" rfl rfl rfl (by decide) (by decide) (by decide)
  have h2 := C7_email_readback_dedup c7Deps stateWithFallback "one" "two"
    "a@b.co" "c@d.co" rfl rfl rfl (by decide) (by decide) (by decide)
  exact ⟨h1.1, h1.2.1 rfl, h2.2.2 (by decide)⟩

/-! ## In-flight flag lemmas, C1 and C4 -/

theorem containsResponseCreate_append (a b : List Msg) :
    containsResponseCreate (a ++ b) =
      (containsResponseCreate a || containsResponseCreate b) := by
  simp [containsResponseCreate, List.any_append]

theorem containsResponseCreate_cons (m : Msg) (l : List Msg) :
    containsResponseCreate (m :: l) =
      (isResponseCreateB m || containsResponseCreate l) := by
  simp [containsResponseCreate]

theorem maybeRequestResponse_flag (s : RelayState) (r : String) :
    (maybeRequestResponse s r).1.responseInProgress =
      (s.responseInProgress ||
        containsResponseCreate (maybeRequestResponse s r).2) := by
  by_cases h : s.responseInProgress <;>
    simp [maybeRequestResponse, h, containsResponseCreate, isResponseCreateB]

theorem emailReadbackFallbackStep_flag (s : RelayState) :
    (emailReadbackFallbackStep s).1.responseInProgress =
      (s.responseInProgress ||
        containsResponseCreate (emailReadbackFallbackStep s).2) := by
  unfold emailReadbackFallbackStep
  cases hp : s.pendingEmailReadback with
  | none => simp [containsResponseCreate]
  | some pending =>
      by_cases hf : pending.fallback = "" <;>
        simp [hf, containsResponseCreate, isResponseCreateB]

theorem handleSynthesisFailure_noop (c : String) (s : RelayState)
    (h : s.voiceFallbackUsed = true ∨ s.fallbackVoice = none ∨
         s.fallbackVoice = some "" ∨ s.fallbackVoice = some s.voiceInUse) :
    handleSynthesisFailure c s = (s, []) := by
  unfold handleSynthesisFailure
  cases hf : s.fallbackVoice with
  | none => rfl
  | some fb =>
      rcases h with h | h | h | h
      · simp [h]
      · rw [hf] at h; cases h
      · rw [hf] at h
        obtain rfl := Option.some.inj h
        simp
      · rw [hf] at h
        obtain rfl := Option.some.inj h
        simp

theorem handleSynthesisFailure_flag (c : String) (s : RelayState) :
    (handleSynthesisFailure c s).1.responseInProgress =
      (s.responseInProgress ||
        containsResponseCreate (handleSynthesisFailure c s).2) := by
  cases hf : s.fallbackVoice with
  | none =>
      rw [handleSynthesisFailure_noop c s (Or.inr (Or.inl hf))]
      simp [containsResponseCreate]
  | some fb =>
      by_cases hcond : s.voiceFallbackUsed = false ∧ fb ≠ "" ∧ fb ≠ s.voiceInUse
      · rw [handleSynthesisFailure_fires c s fb hf hcond.2.1 hcond.2.2 hcond.1]
        by_cases hp : s.responseInProgress <;>
          simp [hp, containsResponseCreate, isResponseCreateB]
      · have hnoop : s.voiceFallbackUsed = true ∨ s.fallbackVoice = none ∨
            s.fallbackVoice = some "" ∨ s.fallbackVoice = some s.voiceInUse := by
          rcases Bool.eq_false_or_eq_true s.voiceFallbackUsed with hu | hu
          · exact Or.inl hu
          · by_cases hb : fb = ""
            · exact Or.inr (Or.inr (Or.inl (hb ▸ hf)))
            · have hv : fb = s.voiceInUse := by
                by_contra hx
                exact hcond ⟨hu, hb, hx⟩
              exact Or.inr (Or.inr (Or.inr (hv ▸ hf)))
        rw [handleSynthesisFailure_noop c s hnoop]
        simp [containsResponseCreate]

theorem requestEmailReadback_flag (email : String) (s : RelayState) :
    (requestEmailReadback email s).1.responseInProgress =
      (s.responseInProgress ||
        containsResponseCreate (requestEmailReadback email s).2) := by
  unfold requestEmailReadback
  by_cases hw : s.wsConnected = false
  · simp [hw, containsResponseCreate]
  · by_cases hn : pyStrip email = "" <;>
      simp [hw, hn, containsResponseCreate, isResponseCreateB]

/-- After a terminal response event or a non-transient error event, the
in-flight flag equals exactly whether that event's own processing emitted
a new response-generation command (synthesis-failure retry or
email-readback fallback). -/
theorem processEvent_flag_clearing (d : Deps) (s : RelayState) (e : Event)
    (he : e.isTerminalB = true ∨ e.isNonTransientErrorB = true) :
    (processEvent d s e).1.responseInProgress =
      containsResponseCreate (processEvent d s e).2 := by
  cases e with
  | responseDone code =>
      by_cases hc : code = some "speech_synthesis_error"
      · simp only [processEvent, hc, if_pos]
        have h := handleSynthesisFailure_flag "status_details"
          { s with responseInProgress := false, pendingEmailReadback := none }
        simpa using h
      · simp [processEvent, hc, containsResponseCreate]
  | responseFailed code =>
      simp only [processEvent]
      have h1 := emailReadbackFallbackStep_flag { s with responseInProgress := false }
      by_cases hc : code = some "speech_synthesis_error"
      · simp only [hc, if_pos]
        have h2 := handleSynthesisFailure_flag "response_failed_event"
          (emailReadbackFallbackStep { s with responseInProgress := false }).1
        rw [containsResponseCreate_append, h2, h1]
        simp [Bool.or_assoc]
      · simp only [hc, if_neg, reduceIte]
        rw [containsResponseCreate_append, h1]
        simp [containsResponseCreate]
  | responseInterrupted => simp [processEvent, containsResponseCreate]
  | responseCanceled => simp [processEvent, containsResponseCreate]
  | errorEvent code =>
      have hcode : code ≠ some "conversation_already_has_active_response" := by
        rcases he with he | he
        · cases he
        · simpa [Event.isNonTransientErrorB] using he
      simp only [processEvent, if_neg hcode]
      have h1 := emailReadbackFallbackStep_flag { s with responseInProgress := false }
      by_cases hc : code = some "speech_synthesis_error"
      · simp only [hc, if_pos]
        have h2 := handleSynthesisFailure_flag "error_event"
          (emailReadbackFallbackStep { s with responseInProgress := false }).1
        rw [containsResponseCreate_append, h2, h1]
        simp [Bool.or_assoc]
      · simp only [hc, if_neg, reduceIte]
        rw [containsResponseCreate_append, h1]
        simp [containsResponseCreate]
  | sessionCreated sid => rcases he with he | he <;> cases he
  | inputAudioBufferCleared => rcases he with he | he <;> cases he
  | speechStarted => rcases he with he | he <;> cases he
  | speechStopped => rcases he with he | he <;> cases he
  | userTranscriptCompleted t => rcases he with he | he <;> cases he
  | transcriptionFailed => rcases he with he | he <;> cases he
  | responseCreated => rcases he with he | he <;> cases he
  | textDelta t => rcases he with he | he <;> cases he
  | textDone t => rcases he with he | he <;> cases he
  | outputItemAdded it => rcases he with he | he <;> cases he
  | outputItemDone it ci n aj => rcases he with he | he <;> cases he
  | functionCallArgumentsDelta => rcases he with he | he <;> cases he
  | functionCallArgumentsDone ci => rcases he with he | he <;> cases he
  | audioDelta b => rcases he with he | he <;> cases he
  | unknown t => rcases he with he | he <;> cases he

/-- For every event that is neither response.created, nor terminal, nor a
non-transient error, the in-flight flag after processing equals the flag
before joined with whether processing emitted a response-generation
command. -/
theorem processEvent_flag_nonclearing (d : Deps) (s : RelayState) (e : Event)
    (h1 : e.isTerminalB = false) (h2 : e.isNonTransientErrorB = false)
    (h3 : e ≠ .responseCreated) :
    (processEvent d s e).1.responseInProgress =
      (s.responseInProgress ||
        containsResponseCreate (processEvent d s e).2) := by
  cases e with
  | sessionCreated sid =>
      by_cases hg : s.sentAutoGreeting <;>
      by_cases hp : s.responseInProgress <;>
      cases hb : s.pendingBackgroundPayload <;>
      by_cases hw : s.wsConnected <;>
      simp [processEvent, maybeRequestResponse, injectBackgroundContext,
        hg, hp, hb, hw, containsResponseCreate, isResponseCreateB]
  | inputAudioBufferCleared => simp [processEvent, containsResponseCreate]
  | speechStarted =>
      simp [processEvent, containsResponseCreate, isResponseCreateB]
  | speechStopped => exact maybeRequestResponse_flag s "speech_stopped"
  | userTranscriptCompleted t =>
      cases t with
      | none => simp [processEvent, containsResponseCreate]
      | some tt =>
          cases hs : d.emailSearch tt with
          | none => simp [processEvent, hs, containsResponseCreate]
          | some email =>
              by_cases hl : s.lastEmailReadback = some email
              · simp [processEvent, hs, hl, containsResponseCreate]
              · simp only [processEvent, hs]
                rw [if_neg hl]
                have h := requestEmailReadback_flag email
                  { s with
                      transcripts := s.transcripts ++
                        [{ timestamp := d.now, sessionId := s.sessionId.getD d.genGuid, role := "user", text := some tt }]
                    , lastEmailReadback := some email }
                simpa using h
  | transcriptionFailed => simp [processEvent, containsResponseCreate]
  | responseCreated => exact absurd rfl h3
  | responseDone code => cases h1
  | responseFailed code => cases h1
  | responseInterrupted => cases h1
  | responseCanceled => cases h1
  | textDelta t => simp [processEvent, containsResponseCreate]
  | textDone t => simp [processEvent, containsResponseCreate]
  | outputItemAdded it => simp [processEvent, containsResponseCreate]
  | outputItemDone it ci n aj =>
      by_cases hi : it = "function_call"
      · simp only [processEvent, hi, if_pos]
        cases hparse : (match aj with
            | some a => if a = "" then Except.ok ([] : Args) else d.parseArgs a
            | none => Except.ok ([] : Args)) with
        | ok args =>
            simp only [hparse]
            rw [containsResponseCreate_cons]
            have h := maybeRequestResponse_flag s "function_call_complete"
            simpa [isResponseCreateB] using h
        | error msg =>
            simp only [hparse]
            rw [containsResponseCreate_cons]
            have h := maybeRequestResponse_flag s "function_call_error"
            simpa [isResponseCreateB] using h
      · simp [processEvent, hi, containsResponseCreate]
  | functionCallArgumentsDelta => simp [processEvent, containsResponseCreate]
  | functionCallArgumentsDone ci => simp [processEvent, containsResponseCreate]
  | audioDelta b =>
      cases b with
      | none => simp [processEvent, containsResponseCreate]
      | some bb =>
          by_cases hb : bb = "" <;>
            simp [processEvent, hb, containsResponseCreate, isResponseCreateB]
  | errorEvent code =>
      have hcode : code = some "conversation_already_has_active_response" := by
        simpa [Event.isNonTransientErrorB] using h2
      simp [processEvent, hcode, containsResponseCreate]
  | unknown t => simp [processEvent, containsResponseCreate]

/-- C1 counterexample: a `response.done` event whose status details report
a synthesis error triggers the voice fallback, which immediately
re-requests a response — so immediately after the relay finishes
processing this terminal event the in-flight flag is true, refuting the
claim that it is always false. -/
theorem C1_counterexample :
    Event.isTerminalB (.responseDone (some "speech_synthesis_error")) = true ∧
    (processEvent sampleDeps busyState
       (.responseDone (some "speech_synthesis_error"))).1.responseInProgress =
      true := by
  exact ⟨rfl, rfl⟩

/-- C1 amended: immediately after the relay finishes processing a terminal
response event, the in-flight flag equals whether that event's processing
itself emitted a new response-generation command (a synthesis-failure
retry or an email-readback fallback); in particular the flag is false
whenever no such follow-up command was sent, regardless of its prior
value. -/
theorem C1_amended (d : Deps) (s : RelayState) (e : Event)
    (he : e.isTerminalB = true) :
    (processEvent d s e).1.responseInProgress =
      containsResponseCreate (processEvent d s e).2 :=
  processEvent_flag_clearing d s e (Or.inl he)

/-- Witness for C1 amended at a concrete terminal event: after
`response.interrupted` the flag matches the (empty) set of emitted
response commands. -/
theorem C1_witness :
    (processEvent sampleDeps busyState .responseInterrupted).1.responseInProgress =
      containsResponseCreate
        (processEvent sampleDeps busyState .responseInterrupted).2 :=
  C1_amended sampleDeps busyState .responseInterrupted rfl

/-- C4 counterexample: an `error` event with a generic code clears the
in-flight flag although it is not one of the four terminal response
events, refuting the claim that true-to-false transitions happen only on
terminal upstream events. -/
theorem C4_counterexample :
    busyState.responseInProgress = true ∧
    Event.isTerminalB (.errorEvent (some "server_error")) = false ∧
    (processEvent sampleDeps busyState
       (.errorEvent (some "server_error"))).1.responseInProgress = false := by
  exact ⟨rfl, rfl, rfl⟩

/-- C4 amended: within one request/response cycle the in-flight flag rises
from false to true only when the processing of the event explicitly sends
a response-generation command or the event is `response.created`, and
falls from true to false only on a terminal response event or a
non-transient `error` event. -/
theorem C4_amended (d : Deps) (s : RelayState) (e : Event) :
    (s.responseInProgress = false →
       (processEvent d s e).1.responseInProgress = true →
       containsResponseCreate (processEvent d s e).2 = true ∨
         e = .responseCreated) ∧
    (s.responseInProgress = true →
       (processEvent d s e).1.responseInProgress = false →
       e.isTerminalB = true ∨ e.isNonTransientErrorB = true) := by
  by_cases h3 : e = .responseCreated
  · subst h3
    refine ⟨fun _ _ => Or.inr rfl, fun hpre hpost => ?_⟩
    simp [processEvent] at hpost
  · by_cases hc : e.isTerminalB = true ∨ e.isNonTransientErrorB = true
    · have hflag := processEvent_flag_clearing d s e hc
      refine ⟨fun hpre hpost => Or.inl (hflag ▸ hpost), fun _ _ => hc⟩
    · have hc' : e.isTerminalB = false ∧ e.isNonTransientErrorB = false := by
        constructor <;>
          [skip; skip] <;> first
          | exact Bool.eq_false_iff.mpr (fun h => hc (Or.inl h))
          | exact Bool.eq_false_iff.mpr (fun h => hc (Or.inr h))
      have hflag := processEvent_flag_nonclearing d s e hc'.1 hc'.2 h3
      constructor
      · intro hpre hpost
        left
        rw [hflag, hpre] at hpost
        simpa using hpost
      · intro hpre hpost
        rw [hflag, hpre] at hpost
        simp at hpost

/-- Witness for C4 amended: a `speech_stopped` event on an idle state
raises the flag and indeed emits a response-generation command. -/
theorem C4_witness :
    containsResponseCreate
        (processEvent sampleDeps stateWithFallback .speechStopped).2 = true ∨
      Event.speechStopped = Event.responseCreated :=
  (C4_amended sampleDeps stateWithFallback .speechStopped).1 rfl rfl

/-! ## C3: injection modality validation -/

/-- C3 counterexample: a request with modalities ["audio","bogus"] does
fail with the validation error, but only after the function-call item and
the function-call-output item have already been sent upstream — two
upstream messages, not zero — refuting "sends nothing upstream". -/
theorem C3_counterexample :
    (injectToolResult (handleFunctionCall sampleToolEnv) "call0001" "custom_alert"
       none (some "ok") true (some ["audio", "bogus"]) stateWithFallback).1 =
      .error "Invalid response modalities: bogus" ∧
    ((injectToolResult (handleFunctionCall sampleToolEnv) "call0001" "custom_alert"
       none (some "ok") true (some ["audio", "bogus"]) stateWithFallback).2.2.filter
       isUpstreamB).length = 2 := by
  exact ⟨rfl, rfl⟩

/-- C3 amended: on an open connection, a request whose modality list
contains an element outside the allowed set fails with the validation
error and sends no response-generation command (though the function-call
and function-call-output items have already been emitted — exactly two
messages); a request with a single valid modality succeeds and sends
exactly one response-generation command scoped with that modality. -/
theorem C3_amended (toolCall : String → Args → String) (callId functionName : String)
    (arguments : Option Args) (output : Option String) (silent : Bool)
    (s : RelayState) (hws : s.wsConnected = true) :
    (∀ m ms, (m :: ms).filter (fun x => !(allowedModalities.contains x)) ≠ [] →
       (injectToolResult toolCall callId functionName arguments output silent
          (some (m :: ms)) s).1 =
         .error ("Invalid response modalities: " ++ String.intercalate ", "
           ((m :: ms).filter (fun x => !(allowedModalities.contains x)))) ∧
       (injectToolResult toolCall callId functionName arguments output silent
          (some (m :: ms)) s).2.2.countP isResponseCreateB = 0 ∧
       (injectToolResult toolCall callId functionName arguments output silent
          (some (m :: ms)) s).2.2.length = 2) ∧
    (∀ m, allowedModalities.contains m = true →
       (injectToolResult toolCall callId functionName arguments output silent
          (some [m]) s).1 = .ok callId ∧
       (injectToolResult toolCall callId functionName arguments output silent
          (some [m]) s).2.2.filter isResponseCreateB =
         [Msg.responseCreateModalities [m]]) := by
  constructor
  · intro m ms hinv
    simp at hinv
    cases hpid : List.lookup "patient_id" (arguments.getD []) with
    | none =>
        simp [injectToolResult, hws, hpid, if_pos hinv, isResponseCreateB]
    | some pid =>
        by_cases hstrip : pyStrip pid = "" <;>
          simp [injectToolResult, hws, hpid, hstrip, if_pos hinv, isResponseCreateB]
  · intro m hm
    have hmem : m ∈ allowedModalities := by simpa using hm
    cases hpid : List.lookup "patient_id" (arguments.getD []) with
    | none =>
        simp [injectToolResult, hws, hpid, hmem, isResponseCreateB]
    | some pid =>
        by_cases hstrip : pyStrip pid = "" <;>
          simp [injectToolResult, hws, hpid, hstrip, hmem, isResponseCreateB]

/-- Witness for C3 amended: a single valid modality yields success with
exactly one scoped response-generation command. -/
theorem C3_witness :
    (injectToolResult (handleFunctionCall sampleToolEnv) "call0002" "custom_alert"
       none (some "ok") true (some ["audio"]) stateWithFallback).1 = .ok "call0002" ∧
    (injectToolResult (handleFunctionCall sampleToolEnv) "call0002" "custom_alert"
       none (some "ok") true (some ["audio"]) stateWithFallback).2.2.filter
       isResponseCreateB = [Msg.responseCreateModalities ["audio"]] :=
  (C3_amended (handleFunctionCall sampleToolEnv) "call0002" "custom_alert"
    none (some "ok") true stateWithFallback rfl).2 "audio" (by decide)

/-! ## C6: the check_order_status dispatch scenario -/

/-- The parsed arguments of the C6 scenario. -/
def c6Args : Args := [("customer_id", "CUST001"), ("order_id", "ORD12345")]

/-- The raw arguments JSON of the C6 scenario. -/
def c6ArgsJson : String :=
  "\x7b\"customer_id\":\"CUST001\",\"order_id\":\"ORD12345\"\x7d"

/-- Dependencies for the C6 scenario: the JSON parser returns (as
`json.loads` would) the two-field mapping for the scenario string. -/
def c6Deps : Deps :=
  { sampleDeps with
      parseArgs := fun a =>
        if a = c6ArgsJson then .ok c6Args else .error "Expecting value" }

/-- C6 counterexample: the wired Tool Registry is the telehealth one, so
dispatching an inbound function-call item named "check_order_status"
emits the unknown-function apology as the function-call-output — a string
that does not mention "In Transit" — refuting the claimed output. -/
theorem C6_counterexample :
    (processEvent c6Deps stateWithFallback
       (.outputItemDone "function_call" (some "call_1") "check_order_status"
          (some c6ArgsJson))).2 =
      [Msg.itemCreateFunctionCallOutput (some "call_1") telehealthUnknownApology,
       Msg.responseCreate] ∧
    mentions telehealthUnknownApology "In Transit" = false := by
  exact ⟨rfl, rfl⟩

/-- C6 amended: dispatching the function-call item
`check_order_status(customer_id := CUST001, order_id := ORD12345)` with no
response in flight emits a function-call-output whose output is the
telehealth unknown-function apology (the wired registry has no
check_order_status handler), followed by exactly one response-generation
request. -/
theorem C6_amended (env : ToolEnv) (es : String → Option String)
    (pa : String → Except String Args) (ts g : String) (s : RelayState)
    (cid : String) (aj : String) (a : Args)
    (hflag : s.responseInProgress = false) (hpa : pa aj = .ok a) (haj : aj ≠ "") :
    (processEvent
       { emailSearch := es, parseArgs := pa, toolCall := handleFunctionCall env,
         now := ts, genGuid := g } s
       (.outputItemDone "function_call" (some cid) "check_order_status"
          (some aj))).2 =
      [Msg.itemCreateFunctionCallOutput (some cid) telehealthUnknownApology,
       Msg.responseCreate] ∧
    (processEvent
       { emailSearch := es, parseArgs := pa, toolCall := handleFunctionCall env,
         now := ts, genGuid := g } s
       (.outputItemDone "function_call" (some cid) "check_order_status"
          (some aj))).1.responseInProgress = true := by
  have hcall : handleFunctionCall env "check_order_status" a =
      telehealthUnknownApology := rfl
  have hparse : (if aj = "" then Except.ok ([] : Args) else pa aj) = .ok a := by
    rw [if_neg haj, hpa]
  simp only [processEvent, hparse, hcall,
    maybeRequestResponse_idle s "function_call_complete" hflag]
  exact ⟨rfl, rfl⟩

/-- Witness for C6 amended at the concrete scenario input. -/
theorem C6_witness :
    (processEvent
       { emailSearch := fun _ => none, parseArgs := c6Deps.parseArgs,
         toolCall := handleFunctionCall sampleToolEnv,
         now := "2026-10-12T00:00:00", genGuid := "g" } stateWithFallback
       (.outputItemDone "function_call" (some "call_2") "check_order_status"
          (some c6ArgsJson))).2 =
      [Msg.itemCreateFunctionCallOutput (some "call_2") telehealthUnknownApology,
       Msg.responseCreate] ∧
    (processEvent
       { emailSearch := fun _ => none, parseArgs := c6Deps.parseArgs,
         toolCall := handleFunctionCall sampleToolEnv,
         now := "2026-10-12T00:00:00", genGuid := "g" } stateWithFallback
       (.outputItemDone "function_call" (some "call_2") "check_order_status"
          (some c6ArgsJson))).1.responseInProgress = true :=
  C6_amended sampleToolEnv (fun _ => none) c6Deps.parseArgs "2026-10-12T00:00:00"
    "g" stateWithFallback "call_2" c6ArgsJson c6Args rfl rfl (by decide)

end VoiceRelay
